import Mathlib

/-!
Shallow embedding of the mapping compiler of `dbting` (the files
`dbting/xlsx_to_json_mapping.py` and `dbting/utils.py`): worksheet row
parsing, column/type normalization, partition synthesis, duplicate
validation and source-document generation, together with theorems settling
the specification claims.

Workbook cells are modelled as `Option String` (`none` is an empty cell,
Python `None`); numeric cell values are outside the model.  File-system
effects are modelled as an explicit event trace.
-/

namespace DbtIng

/-- A spreadsheet cell value as seen by the parser: Python `None` or a string. -/
abbrev Cell := Option String

/-- Python truthiness of a cell: `None` and the empty string are falsy. -/
def pyTruthy : Cell → Bool
  | none => false
  | some s => s != ""

/-- Python `a or b` where `a` is a cell and `b` is a string default. -/
def cellOr (c : Cell) (d : String) : String :=
  match c with
  | none => d
  | some s => if s = "" then d else s

/-- ASCII lower-casing, the fragment of Python `str.lower` used by workbook data. -/
def pyLower (s : String) : String := String.mk (s.data.map Char.toLower)

/-- Python `str.strip()` with no argument: drop whitespace from both ends. -/
def pyStrip (s : String) : String :=
  String.mk (((s.data.dropWhile Char.isWhitespace).reverse.dropWhile
    Char.isWhitespace).reverse)

/-- Replace every occurrence of the character `a` by `b` (the single-character
instances of Python `str.replace` used by the compiler). -/
def replaceChar (a b : Char) (s : String) : String :=
  String.mk (s.data.map fun c => if c = a then b else c)

/-- Test whether `p` is a prefix of `s` (Python `str.startswith`). -/
def strPrefixOf (p s : String) : Bool := List.isPrefixOf p.data s.data

/-- Splitting step of Python `str.split(",")`, accumulating the current piece. -/
def splitOnCommaGo : List Char → List Char → List String
  | acc, [] => [String.mk acc.reverse]
  | acc, c :: rest =>
    if c = ',' then String.mk acc.reverse :: splitOnCommaGo [] rest
    else splitOnCommaGo (c :: acc) rest

/-- Python `str.split(",")`: split on every comma, keeping empty pieces. -/
def pySplitComma (s : String) : List String := splitOnCommaGo [] s.data

/-- Translation of `utils.to_bool`: `None`, the empty string and unrecognized tokens are false;
the recognized truthy tokens are looked up after lower-casing. -/
def to_bool (value : Cell) : Bool :=
  match value with
  | none => false
  | some s =>
    if s = "" then false
    else ["yes", "y", "true", "t", "si", "1"].contains (pyLower s)

/-- Python substring membership `needle in hay` on strings. -/
def pyInStr (needle hay : String) : Bool :=
  (List.range (hay.data.length + 1)).any fun i =>
    List.isPrefixOf needle.data (hay.data.drop i)

/-- Python `str.rstrip` with the single character `>`. -/
def pyRstripGt (s : String) : String :=
  String.mk (s.data.reverse.dropWhile (fun c => c == '>')).reverse

/-- Result of normalizing one raw data-type token (lines 335-367 of
`xlsx_to_json_mapping.py`): a canonical data type plus the optional `format`
entry, a `MappingException`, or an uncaught Python exception. -/
inductive NormResult where
  | ok (data_type : String) (format : Option Cell)
  | err (msg : String)
  | crash (msg : String)
deriving Repr, DecidableEq

/-- Lines 335 and 339-367 of `xlsx_to_json_mapping.py`: lower-case the raw
`data_type` cell and canonicalize it against the declared `length` cell.
Note that the source tests `col["data_type"] in ("decimal")`,
`in ("float")` and `in ("double")`: these right-hand sides are plain strings,
not one-element tuples, so Python evaluates substring membership there; the
translation keeps that behavior via `pyInStr`.  A `None` cell crashes on
`item["data_type"].lower()` before any branch is reached.  The
`str(item)` payloads of the two error messages are omitted. -/
def normalize_data_type (row_number : Nat) (data_type_cell : Cell) (length : Cell) :
    NormResult :=
  match data_type_cell with
  | none => .crash "AttributeError: NoneType has no attribute lower"
  | some raw =>
    let dt := pyLower raw
    if dt = "" then
      .err ("#" ++ toString row_number ++ " missing data_type in row")
    else if dt = "char" ∨ dt = "varchar" then
      .ok (dt ++ "(" ++ cellOr length "255" ++ ")") none
    else if pyInStr dt "decimal" then
      .ok (dt ++ "(" ++ replaceChar '.' ',' (cellOr length "18,2") ++ ")") none
    else if pyInStr dt "float" then
      .ok "real" none
    else if pyInStr dt "double" then
      .ok "double precision" none
    else if dt = "date" ∨ dt = "timestamp" then
      .ok dt (some length)
    else if ["boolean", "tinyint", "smallint", "integer", "bigint", "float",
        "double precision"].contains dt then
      .ok dt none
    else if dt = "array<char>" ∨ dt = "array<varchar>" then
      .ok (pyRstripGt dt ++ "(" ++ cellOr length "255" ++ ")>") none
    else
      .err ("#" ++ toString row_number ++ " invalid data_type in row")

/-- Drop every character of `cs` from both ends of `s` (Python `str.strip(chars)`). -/
def stripCharSet (cs : List Char) (s : String) : String :=
  String.mk (((s.data.dropWhile (fun c => cs.contains c)).reverse.dropWhile
    (fun c => cs.contains c)).reverse)

/-- Remove every character of `cs` from `s` (Python `str.replace(c, "")`). -/
def removeChars (cs : List Char) (s : String) : String :=
  String.mk (s.data.filter (fun c => !cs.contains c))

/-- After an opening `\x7b\x7b`, consume the `[^\x7d]*\x7d\x7d` tail of the
pattern: return the remainder after the closing braces when it matches here. -/
def jinjaMatchAt : List Char → Option (List Char)
  | '}' :: '}' :: rest => some rest
  | '}' :: _ => none
  | [] => none
  | _ :: rest => jinjaMatchAt rest

/-- One fuelled step of `re.sub("\x7b\x7b[^\x7d]*\x7d\x7d", "", t)`: delete every
non-overlapping match, scanning left to right.  The fuel is the input length,
which bounds the recursion since every call consumes at least one character. -/
def removeJinjaGo : Nat → List Char → List Char
  | 0, l => l
  | _, [] => []
  | fuel + 1, '{' :: '{' :: rest =>
    match jinjaMatchAt rest with
    | some rem => removeJinjaGo fuel rem
    | none => '{' :: removeJinjaGo fuel ('{' :: rest)
  | fuel + 1, c :: rest => c :: removeJinjaGo fuel rest

/-- Python `re.sub("\x7b\x7b[^\x7d]*\x7d\x7d", "", t)` on a string. -/
def removeJinja (s : String) : String :=
  String.mk (removeJinjaGo s.data.length s.data)

/-- Translation of `filename_to_source_table` (lines 48-56): drop the extension (the regex
`\..*$` erases everything from the first dot), drop jinja macros, turn dashes
into underscores, strip stray separators, drop globbing characters, lower-case
and prefix with the flow namespace.  On string inputs none of these steps can
raise, so the surrounding `try` in `parse_rows` never fires in the model. -/
def filename_to_source_table (filename : String) (flow : String) : String :=
  let t := String.mk (filename.data.takeWhile (fun c => c ≠ '.'))
  let t := replaceChar '-' '_' (removeJinja t)
  let t := stripCharSet ['_', ' ', '.', '-'] t
  let t := removeChars ['*', '?'] t
  let t := stripCharSet ['_'] t
  let t := pyLower t
  if strPrefixOf (flow ++ "_") t then t else flow ++ "_" ++ t

/-- Translation of `get_target_table_name` (lines 59-63). -/
def get_target_table_name (target_table : String) (flow : String) : String :=
  let result := pyLower target_table
  if strPrefixOf (flow ++ "_") result then result else flow ++ "_" ++ result

/-- Translation of `table_to_path` (lines 66-67). -/
def table_to_path (table : String) (flow : String) : String :=
  flow ++ "/" ++ table.drop (flow.length + 1)

/-- Python `os.path.join` for the relative s3-style paths the compiler builds. -/
def path_join (a b : String) : String :=
  if a = "" then b
  else if a.data.getLast? = some '/' then a ++ b
  else a ++ "/" ++ b

/-- The `partitions` entry of a table definition: a list (the skeleton default),
a string (written by a `#CONFIG` row), or a missing key. -/
inductive PartitionsSetting where
  | pList (l : List String)
  | pStr (s : String)
  | unset
deriving Repr, DecidableEq

/-- Modelled from the spec: `DEFAULT_PARTITIONS` is imported by
`xlsx_to_json_mapping.py` from `utils.py`, but its definition is not present in
the source tree; per the spec the configured default partition list is
conventionally `year, month, day`. -/
def DEFAULT_PARTITIONS : List String := ["year", "month", "day"]

/-- Constant `DEFAULT_SOURCE_FORMAT` of utils.py (line 51). -/
def DEFAULT_SOURCE_FORMAT : String := "csv"

/-- Lines 374-381 of `parse_rows`: an empty string means no partitions, any
other string is split on commas with each piece stripped, a list passes
through, and a missing key (the bare `except` catches the `KeyError`) falls
back to `DEFAULT_PARTITIONS`. -/
def resolve_partitions : PartitionsSetting → List String
  | .pList l => l
  | .pStr s => if s = "" then [] else (pySplitComma s).map pyStrip
  | .unset => DEFAULT_PARTITIONS

/-- One raw column record produced by the `#SELECT` section: the cells under
the recorded header labels.  `none` stands for an empty cell. -/
structure RawItem where
  file_name : Cell := none
  source_name : Cell := none
  new_name : Cell := none
  description : Cell := none
  data_type : Cell := none
  length : Cell := none
  key : Cell := none
  index : Cell := none
  nullable : Cell := none
deriving Repr, DecidableEq

/-- A normalized column dictionary as built by `parse_rows`.  Synthesized
partition columns carry no `key`/`index`/`nullable`/`format` entries in the
source; since every downstream read of those entries is a falsy-defaulting
`.get`, the missing entries are modelled by the `false`/`none` defaults, and
the `"partition": "yes"` marker by `partition := true`. -/
structure Col where
  source_schema : String := ""
  source_table : String := ""
  source_location : String := ""
  source_column : String := ""
  source_formula : Option Cell := none
  target_schema : String := ""
  target_table : String := ""
  target_location : String := ""
  target_column : String := ""
  description : String := ""
  data_type : String := ""
  format : Option Cell := none
  key : Bool := false
  index : Bool := false
  nullable : Bool := false
  partition : Bool := false
deriving Repr, DecidableEq

/-- The mutable table definition dictionary during `parse_rows`.  `Option`
fields model dictionary keys that may be absent; `source_table`,
`source_location`, `filename`, `target_table` and `target_location` are fixed
by the first processed data row (lines 297-299 and 326-328). -/
structure TableState where
  flow : String := ""
  batch_profile : String := ""
  datalake_profile : String := ""
  source_schema : String := ""
  target_schema : String := ""
  batch_location : String := ""
  datalake_location : String := ""
  field_delimiter : String := "|"
  source_format : Option String := none
  use_source_name : Cell := none
  exclude_table : Cell := none
  tags : Cell := none
  description : Cell := none
  partitions : PartitionsSetting := .pList DEFAULT_PARTITIONS
  partitions_style : Option String := none
  source_table : Option String := none
  source_location : Option String := none
  filename : Option String := none
  target_table : Option String := none
  target_location : Option String := none
  col_number : Nat := 0
deriving Repr, DecidableEq

/-- Outcome of processing one raw item in the row loop of `parse_rows`
(lines 276-371): a normalized column plus the updated table definition, the
`Empty` skip, a `MappingException`, or an uncaught Python exception. -/
inductive RowOutcome where
  | ok (col : Col) (st : TableState)
  | empty
  | err (msg : String)
  | crash (msg : String)
deriving Repr, DecidableEq

/-- Whether the outcome is a produced column. -/
def RowOutcome.isOk : RowOutcome → Bool
  | .ok _ _ => true
  | _ => false

/-- Lines 276-368 of `parse_rows`, one iteration of the row loop.  Notes on
the translation:
* a falsy `file_name` raises `Empty` before anything else (lines 277-278);
* `filename_to_source_table` cannot raise on string cells, so the
  `invalid filename` exception of lines 285-288 is unreachable;
* the `source_schema` comparison of line 301 compares a value against itself
  and can never fail, so it is omitted;
* line 310 appends the half-built column to the raw-item list being iterated;
  each such entry lacks a `file_name` key and is skipped as `Empty` when the
  iteration reaches it, contributing nothing, so the model iterates only over
  the original items;
* `item["source_name"].lower()` on line 312 crashes when the cell is `None`. -/
def process_item (st : TableState) (row_number : Nat) (target_table : String)
    (item : RawItem) : RowOutcome :=
  if ¬ pyTruthy item.file_name then .empty
  else
    let filename := item.file_name.getD ""
    let source_format := st.source_format
    let source_table := filename_to_source_table filename st.flow
    let col_source_location := cellOr st.source_location
      (path_join st.batch_location (table_to_path source_table st.flow) ++ "/")
    let td_source_table := st.source_table.getD source_table
    let td_source_location := st.source_location.getD col_source_location
    let td_filename := st.filename.getD filename
    if source_table ≠ td_source_table then
      .err ("#" ++ toString row_number ++ " source table mismatch " ++ source_table)
    else if col_source_location ≠ td_source_location then
      .err ("#" ++ toString row_number ++ " source location mismatch " ++
        col_source_location)
    else
      let col_number := st.col_number + 1
      let sourceColFormula : Option (String × Option Cell) :=
        if source_format = some "json" then
          match item.source_name with
          | none => none
          | some s => some (pyLower s, none)
        else
          some ("col" ++ toString col_number,
            if to_bool st.use_source_name then some item.source_name else none)
      match sourceColFormula with
      | none => .crash "AttributeError: NoneType has no attribute lower"
      | some (source_column, source_formula) =>
        let col_target_location := cellOr st.target_location
          (path_join st.datalake_location (table_to_path target_table st.flow) ++ "/")
        if ¬ pyTruthy item.new_name then
          .err ("#" ++ toString row_number ++ " invalid target_column <empty>")
        else
          let target_column := pyLower (item.new_name.getD "")
          if target_column.data.contains '.' ∨ target_column.data.contains ' ' ∨
              target_column.data.contains '-' then
            .err ("#" ++ toString row_number ++ " invalid target_column " ++
              target_column)
          else
            match normalize_data_type row_number item.data_type item.length with
            | .crash m => .crash m
            | .err m => .err m
            | .ok dt fmt =>
              .ok
                { source_schema := st.source_schema
                  source_table := source_table
                  source_location := col_source_location
                  source_column := source_column
                  source_formula := source_formula
                  target_schema := st.target_schema
                  target_table := target_table
                  target_location := col_target_location
                  target_column := target_column
                  description := cellOr item.description ""
                  data_type := dt
                  format := fmt
                  key := to_bool item.key
                  index := to_bool item.index
                  nullable := to_bool item.nullable
                  partition := false }
                { st with
                  source_table := some td_source_table
                  source_location := some td_source_location
                  filename := some td_filename
                  target_table := some target_table
                  target_location := some col_target_location
                  col_number := col_number }

/-- Result of a whole table in `parse_rows`: the normalized column list and
final table definition, a `MappingException`, or an uncaught exception. -/
inductive TableResult where
  | ok (cols : List Col) (st : TableState)
  | err (msg : String)
  | crash (msg : String)
deriving Repr, DecidableEq

/-- The row loop of `parse_rows` over the original raw items, threading the
table definition and collecting the normalized columns. -/
def process_items (st : TableState) (target_table : String) :
    Nat → List RawItem → TableResult
  | _, [] => .ok [] st
  | n, item :: rest =>
    match process_item st n target_table item with
    | .empty => process_items st target_table (n + 1) rest
    | .err m => .err m
    | .crash m => .crash m
    | .ok col st1 =>
      match process_items st1 target_table (n + 1) rest with
      | .ok cols st2 => .ok (col :: cols) st2
      | r => r

/-- Lines 384-389 of `parse_rows`: the synthesized data type of a partition key. -/
def partition_data_type (k : String) : String :=
  if k = "year" then "char(4)"
  else if k = "day" ∨ k = "month" ∨ k = "hour" ∨ k = "minute" then "char(2)"
  else "varchar(20)"

/-- Lines 390-402 of `parse_rows`: the synthesized partition column for key `k`. -/
def make_partition_column (source_schema source_table source_location
    target_schema target_table target_location : String) (k : String) : Col :=
  { source_schema := source_schema
    source_table := source_table
    source_location := source_location
    source_column := k
    target_schema := target_schema
    target_table := target_table
    target_location := target_location
    target_column := k
    description := ""
    partition := true
    data_type := partition_data_type k }

/-- Lines 273-405 of `parse_rows` for one table: run the row loop, resolve the
`partitions` setting, and append one synthesized partition column per key.
When the partition list is non-empty but no data row fixed `source_table`,
`source_location`, `target_table` or `target_location`, building the partition
column raises an uncaught `KeyError` (lines 391-397 read those keys). -/
def parse_table (st : TableState) (target_table : String) (items : List RawItem) :
    TableResult :=
  match process_items st target_table 1 items with
  | .err m => .err m
  | .crash m => .crash m
  | .ok cols st1 =>
    let partitions := resolve_partitions st1.partitions
    let st2 := { st1 with partitions := .pList partitions }
    match partitions with
    | [] => .ok cols st2
    | _ =>
      match st1.source_table, st1.source_location, st1.target_table,
          st1.target_location with
      | some stab, some sloc, some ttab, some tloc =>
        .ok (cols ++ partitions.map (make_partition_column st1.source_schema stab
          sloc st1.target_schema ttab tloc)) st2
      | _, _, _, _ => .crash "KeyError"

/-- The column list of an `ok` table result (empty otherwise). -/
def parsedColumns : TableResult → List Col
  | .ok cols _ => cols
  | _ => []

/-- The partition predicate of `generate_column`/`generate_sources`: the
rendered template joins `f=\x27\x7b\x7b var(\x27f\x27) \x7d\x7d\x27` over the
partition keys with ` and `. -/
def partition_predicate (partitions : List String) : String :=
  String.intercalate " and " (partitions.map fun f =>
    f ++ "=\x27\x7b\x7b var(\x27" ++ f ++ "\x27) \x7d\x7d\x27")

/-- A generated data-quality assertion in a source document. -/
inductive DbtTest where
  | unique_where (w : String)
  | not_null (w : String)
  | unique_columns_where (combination_of_columns : List String) (w : String)
deriving Repr, DecidableEq

/-- Whether a generated assertion is a per-column uniqueness assertion. -/
def DbtTest.isUniqueness : DbtTest → Bool
  | .unique_where _ => true
  | _ => false

/-- A generated per-column document entry; empty `tests` and a false
`meta_partition` stand for the deleted `tests`/`meta` keys. -/
structure GenColumn where
  name : String
  description : String
  data_type : String
  tests : List DbtTest
  meta_partition : Bool
deriving Repr, DecidableEq

/-- Translation of `generate_column` (lines 418-455).  Line 419 and the conditional
expression of line 420 read `column.get("meta", \x7b\x7d).get("partition")`:
the parsed column dictionaries never carry a `"meta"` key (that key exists only
on the generated documents), so that lookup is the constant `None`, modelled by
`column_meta_partition`.  The partition marker the source intended to read
lives under the own `"partition"` key of the column, compared on lines 428 and 441. -/
def generate_column (column : Col) (kind : String) (partitions : List String)
    (forced_type0 : Option String) (has_compound_key : Bool)
    (table_format : Option String) : GenColumn :=
  let column_meta_partition : Cell := none
  let forced_type : Option String :=
    if kind = "batch" ∧ ¬ pyTruthy column_meta_partition ∧
        table_format ≠ some "json" then
      if ¬ pyTruthy column_meta_partition then some "varchar(65535)" else none
    else forced_type0
  let tests1 : List DbtTest :=
    if kind = "datalake" ∧ column.key = true ∧ has_compound_key = false then
      [.unique_where (partition_predicate partitions)]
    else []
  let tests2 : List DbtTest :=
    if column.nullable = false ∧ column.partition = false then
      tests1 ++ [.not_null (partition_predicate partitions)]
    else tests1
  { name := if kind = "batch" then column.source_column else column.target_column
    description := column.description
    data_type := forced_type.getD column.data_type
    tests := tests2
    meta_partition := column.partition }

/-- One parsed table as handed from `parse_rows` to `check` and
`generate_sources`: the dictionary key (target table name), the normalized
column list, and the final table definition. -/
abbrev ParsedTable := String × List Col × TableState

/-- Splitting step of Python `str.split()`: whitespace runs separate pieces
and empty pieces are dropped. -/
def pySplitWsGo : List Char → List Char → List String
  | acc, [] => if acc.isEmpty then [] else [String.mk acc.reverse]
  | acc, c :: rest =>
    if c.isWhitespace then
      (if acc.isEmpty then [] else [String.mk acc.reverse]) ++ pySplitWsGo [] rest
    else pySplitWsGo (c :: acc) rest

/-- Python `str.split()` with no argument. -/
def pySplitWs (s : String) : List String := pySplitWsGo [] s.data

/-- The generated per-table source document (the fields the datalake kind can
carry; `tests := none` and `tags := none` stand for the deleted keys). -/
structure SourceTableDoc where
  name : String
  identifier : String
  tests : Option (List DbtTest)
  tags : Option (List String)
  columns : List GenColumn
deriving Repr, DecidableEq

/-- The datalake branch of `generate_sources` (lines 513-568) for one table:
collect the key columns, attach a single table-level compound-uniqueness
assertion when there is more than one, and generate the column entries with
`has_compound_key` passed through. -/
def generate_datalake_table (p : ParsedTable) : SourceTableDoc :=
  let cols := p.2.1
  let st := p.2.2
  let partitions := resolve_partitions st.partitions
  let key_columns := (cols.filter (fun c => c.key)).map (fun c => c.target_column)
  let has_compound_key : Bool := decide (key_columns.length > 1)
  let tests : Option (List DbtTest) :=
    if has_compound_key then
      some [.unique_columns_where key_columns (partition_predicate partitions)]
    else none
  let tags : Option (List String) :=
    if pyTruthy st.tags then
      match pySplitWs (st.tags.getD "") with
      | [] => none
      | l => some l
    else none
  { name := st.datalake_profile ++ "__" ++ st.target_table.getD ""
    identifier := st.target_table.getD ""
    tests := tests
    tags := tags
    columns := cols.map fun c =>
      generate_column c "datalake" partitions none has_compound_key none }

/-- The batch branch of `generate_sources` (lines 464-512) restricted to the
column entries: the table format defaults to `DEFAULT_SOURCE_FORMAT` and is
passed to `generate_column` as `table_format`. -/
def generate_batch_columns (p : ParsedTable) : List GenColumn :=
  let cols := p.2.1
  let st := p.2.2
  let source_format := cellOr st.source_format DEFAULT_SOURCE_FORMAT
  cols.map fun c => generate_column c "batch" (resolve_partitions st.partitions)
    none false (some source_format)

/-- The duplicate scan of `check` (lines 575-585) over the
`target_column` values: a name is reported each time it is seen again. -/
def dup_scan (seen : List String) : List String → List String
  | [] => []
  | t :: ts => (if t ∈ seen then [t] else []) ++ dup_scan (t :: seen) ts

/-- The duplicated `target_column` values of one table, in report order. -/
def table_dup_columns (cols : List Col) : List String :=
  dup_scan [] (cols.map (fun c => c.target_column))

/-- All `(table, column)` duplicates reported by `check` across the run, in
the order they are printed (the scan covers every table before any failure). -/
def check_reported : List ParsedTable → List (String × String)
  | [] => []
  | p :: ps => (table_dup_columns p.2.1).map (fun c => (p.1, c)) ++ check_reported ps

/-- Function `check` raises the single aggregate `MappingException("Duplicated
columns")` exactly when at least one duplicate was reported. -/
def check_raises (parsed : List ParsedTable) : Bool :=
  !(check_reported parsed).isEmpty

/-- Input of one table to `parse_rows`: the dictionary key and the parsed
worksheet data. -/
structure TableInput where
  target_table : String
  st : TableState
  items : List RawItem
deriving Repr, DecidableEq

/-- A failed run: a `MappingException` or an uncaught Python exception. -/
inductive Failure where
  | exc (msg : String)
  | crash (msg : String)
deriving Repr, DecidableEq

/-- The table loop of `parse_rows` (lines 267-405): excluded tables are
dropped, any row/table failure aborts the whole run. -/
def parse_rows_tables : List TableInput → Except Failure (List ParsedTable)
  | [] => .ok []
  | t :: ts =>
    if to_bool t.st.exclude_table then parse_rows_tables ts
    else
      match parse_table t.st t.target_table t.items with
      | .err m => .error (.exc m)
      | .crash m => .error (.crash m)
      | .ok cols st1 =>
        match parse_rows_tables ts with
        | .ok rest => .ok ((t.target_table, cols, st1) :: rest)
        | .error e => .error e

/-- An observable file-system effect of the compilation run. -/
inductive Event where
  | write_flow_json
  | write_cfg_json
  | rmtree (kind : String)
  | write_source_doc (kind : String) (name : String)
deriving Repr, DecidableEq

/-- The trace and outcome of one compilation run. -/
structure RunResult where
  events : List Event
  error : Option Failure
deriving Repr, DecidableEq

/-- The write trace of `generate_sources` (lines 458-570) for one kind: the
output directory is cleared, then one document per table is written. -/
def generate_sources_events (parsed : List ParsedTable) (kind : String) :
    List Event :=
  Event.rmtree kind :: parsed.map fun p =>
    Event.write_source_doc kind
      (if kind = "batch" then p.2.2.batch_profile ++ "__" ++ p.2.2.source_table.getD ""
       else p.2.2.datalake_profile ++ "__" ++ p.2.2.target_table.getD "")

/-- Translation of `xlsx_to_json_mapping` after worksheet parsing (lines 614-617), with the
write of `flows/\x7bflow\x7d.json` and `flows/\x7bflow\x7d.cfg.json` placed
where the source performs it: at the end of `parse_rows` (lines 407-414),
before `check` runs.  A failure inside the row loop aborts before any write;
a `check` failure happens after both files are written. -/
def xlsx_to_json_mapping_run (tables : List TableInput) : RunResult :=
  match parse_rows_tables tables with
  | .error e => { events := [], error := some e }
  | .ok parsed =>
    let ev0 := [Event.write_flow_json, Event.write_cfg_json]
    if check_raises parsed then
      { events := ev0, error := some (.exc "Duplicated columns") }
    else
      { events := ev0 ++ generate_sources_events parsed "batch" ++
          generate_sources_events parsed "datalake"
        error := none }

/-- One worksheet row as yielded by `ws.values`: a fixed-width tuple of cell
values (openpyxl pads short rows with `None` up to the sheet width). -/
abbrev Row := List Cell

/-- A worksheet: its title and its rows. -/
structure Worksheet where
  title : String := ""
  rows : List Row := []
deriving Repr, DecidableEq

/-- Cell access `ws[addr].value` for row `r`, column `c` (0-based): `None` outside the grid. -/
def wsCell (ws : Worksheet) (r c : Nat) : Cell :=
  (((ws.rows.get? r).getD []).get? c).join

/-- The first cell of a row, `row[0]`; rows of an ingestion worksheet always
have width at least one since `A1` holds the `TYPE` marker. -/
def row0 (r : Row) : Cell := (r.get? 0).join

/-- The row-handler functions of `parse_worsheet` that can be stored under
the `parse_row` key of the table definition. -/
inductive Handler where
  | config
  | whereH
  | selectHeader
  | selectRow
deriving Repr, DecidableEq

/-- A value stored in the `table_def` dictionary during worksheet parsing:
the initial `None` under `parse_row`, a handler function, the header dict
written by a `#SELECT` header row, or a string written by a `#CONFIG` row or
the `where` handler.  Config rows write into the same dictionary that holds
the parser state, so a config row keyed `header` or `parse_row` aliases it. -/
inductive TdVal where
  | vNone
  | vHandler (h : Handler)
  | vHeader (l : List (String × Nat))
  | vStr (s : String)
deriving Repr, DecidableEq

/-- Dictionary lookup in the `table_def` association list. -/
def dictGet : List (String × TdVal) → String → Option TdVal
  | [], _ => none
  | (k0, v0) :: rest, k => if k0 = k then some v0 else dictGet rest k

/-- Dictionary assignment: overwrite in place when the key exists, append
otherwise (Python dict assignment). -/
def dictSet : List (String × TdVal) → String → TdVal → List (String × TdVal)
  | [], k, v => [(k, v)]
  | (k0, v0) :: rest, k, v =>
    if k0 = k then (k0, v) :: rest
    else (k0, v0) :: dictSet rest k v

/-- Dictionary deletion of the (unique) entry under a key, if present. -/
def dictDel : List (String × TdVal) → String → List (String × TdVal)
  | [], _ => []
  | (k0, v0) :: rest, k => if k0 = k then rest else (k0, v0) :: dictDel rest k

/-- The mutable worksheet-parsing state: the `table_def` entries the row loop
reads or writes (`parse_row`, `header`, and whatever `#CONFIG`/`#WHERE` rows
store), plus the local `columns` list of collected raw items.  The skeleton
of lines 179-192 also holds constant string/list entries (`type`, `flow`,
the profiles, locations, schemas, `field_delimiter`, `partitions`,
`columns`) that the loop never reads; a config row overwriting one of them
behaves identically in this dictionary model, only the entry order differs. -/
structure WsState where
  td : List (String × TdVal) := [("parse_row", .vNone)]
  items : List (List (String × Cell)) := []
deriving Repr, DecidableEq

/-- A step of the worksheet row loop: continue with a new state, raise a
`MappingException`, or crash with an uncaught Python exception. -/
inductive WsStep where
  | cont (s : WsState)
  | exc (msg : String)
  | crashW (msg : String)
deriving Repr, DecidableEq

/-- Translation of `parse_row_select_header` (line 92): map each non-`None` header label,
lower-cased, to its column index.  Duplicate labels are kept in order; lookups
below take the last occurrence, matching the dict overwrite semantics. -/
def headerOf (row : Row) : List (String × Nat) :=
  row.enum.filterMap fun ic =>
    match ic.2 with
    | none => none
    | some h => some (pyLower h, ic.1)

/-- Dict-style lookup in an association list built with duplicate keys kept in
order: the last binding wins. -/
def dictLookup (l : List (String × Cell)) (k : String) : Option Cell :=
  (l.reverse.find? (fun p => p.1 = k)).map (fun p => p.2)

/-- Lines 195-204 of `parse_worsheet`, one row of the loop past row 2:
directive markers store a handler under the `parse_row` key, any other row is
dispatched to the value stored there.  Dispatching on the initial `None`, or
on a string that a `#CONFIG` row keyed `parse_row` stored, is an uncaught
`TypeError`.  `parse_row_config` wraps its body in `except Exception`, so a
`None` first cell or a missing second cell becomes a `MappingException`; its
write goes into the shared `table_def` dictionary under the stripped,
lower-cased first cell, so a config row keyed `header` creates the header
entry.  `parse_row_where` tolerates a `None` first cell and stores a
non-empty condition under `where_condition`.  `parse_row_select` iterates
the stored header dict (a lookup that crashes if a config row replaced the
entry with a string), yields `None` for out-of-range lookups and strips
string values. -/
def ws_process_row (s : WsState) (row : Row) : WsStep :=
  match row with
  | [] => .crashW "IndexError: row"
  | _ =>
    if row0 row = some "#CONFIG" then
      .cont { s with td := dictSet s.td "parse_row" (.vHandler .config) }
    else if row0 row = some "#WHERE" then
      .cont { s with td := dictSet s.td "parse_row" (.vHandler .whereH) }
    else if row0 row = some "#SELECT" then
      .cont { s with td := dictSet s.td "parse_row" (.vHandler .selectHeader) }
    else
      match dictGet s.td "parse_row" with
      | none => .crashW "KeyError: parse_row"
      | some .vNone => .crashW "TypeError: NoneType is not callable"
      | some (.vStr _) => .crashW "TypeError: str is not callable"
      | some (.vHeader _) => .crashW "TypeError: dict is not callable"
      | some (.vHandler .config) =>
        match row.get? 0 with
        | none => .exc "Error parsing row"
        | some none => .exc "Error parsing row"
        | some (some k) =>
          match row.get? 1 with
          | none => .exc "Error parsing row"
          | some v =>
            let value : TdVal :=
              .vStr (if pyTruthy v then pyStrip (v.getD "") else "")
            .cont { s with td := dictSet s.td (pyLower (pyStrip k)) value }
      | some (.vHandler .whereH) =>
        let wc := pyStrip (cellOr (row0 row) "")
        .cont (if wc ≠ "" then
          { s with td := dictSet s.td "where_condition" (.vStr wc) }
        else s)
      | some (.vHandler .selectHeader) =>
        let td1 := dictSet s.td "header" (.vHeader (headerOf row))
        .cont { s with td := dictSet td1 "parse_row" (.vHandler .selectRow) }
      | some (.vHandler .selectRow) =>
        match dictGet s.td "header" with
        | some (.vHeader hdr) =>
          let item := hdr.map fun hi =>
            (hi.1, match row.get? hi.2 with
                   | none => none
                   | some c => c.map pyStrip)
          .cont { s with items := s.items ++ [item] }
        | none => .crashW "KeyError: header"
        | some _ => .crashW "AttributeError: items"

/-- The worksheet row loop over the rows past row 2. -/
def ws_fold : WsState → List Row → WsStep
  | s, [] => .cont s
  | s, r :: rs =>
    match ws_process_row s r with
    | .cont s1 => ws_fold s1 rs
    | e => e

/-- Whether the worksheet row loop runs to completion. -/
def ws_fold_completes (rows : List Row) : Bool :=
  match ws_fold {} rows with
  | .cont _ => true
  | _ => false

/-- Outcome of `parse_worsheet`: a silent skip for non-ingestion worksheets, a
`MappingException`, an uncaught Python exception, or a parsed table keyed by
its target table name. -/
inductive WsOutcome where
  | skip
  | exc (msg : String)
  | crashW (msg : String)
  | okW (target_table : String) (s : WsState)
deriving Repr, DecidableEq

/-- Translation of `parse_worsheet` (lines 162-211): skip unless `A1` is `TYPE`, reject
unless `A2` is `#INGESTION`, run the row loop from row 3, then delete the
`parse_row` and `header` entries and read the target table from the first
collected item.  `del table_def["parse_row"]` cannot fail (the key is present
from the skeleton and only ever overwritten); `del table_def["header"]`
raises `KeyError` when the entry was created neither by a `#SELECT` header
row nor by a config row keyed `header`; with the entry present but no
collected data rows `columns[0]` raises `IndexError`; a first item without a
`target_table` label raises `KeyError`, and a `None` value under it crashes
in `get_target_table_name` on `target_table.lower()`.  A target table
already parsed from an earlier worksheet is a `MappingException`. -/
def parse_worsheet (ws : Worksheet) (flow : String) (existing_tables : List String) :
    WsOutcome :=
  let flow := pyLower flow
  if wsCell ws 0 0 ≠ some "TYPE" then .skip
  else if wsCell ws 1 0 ≠ some "#INGESTION" then
    .exc ("#0 invalid type " ++ cellOr (wsCell ws 1 0) "None")
  else
    match ws_fold {} (ws.rows.drop 2) with
    | .exc m => .exc m
    | .crashW m => .crashW m
    | .cont s =>
      let s1 : WsState := { s with td := dictDel s.td "parse_row" }
      match dictGet s1.td "header" with
      | none => .crashW "KeyError: header"
      | some _ =>
        let s2 : WsState := { s1 with td := dictDel s1.td "header" }
        match s2.items.head? with
        | none => .crashW "IndexError: columns"
        | some item0 =>
          match dictLookup item0 "target_table" with
          | none => .crashW "KeyError: target_table"
          | some none => .crashW "AttributeError: NoneType has no attribute lower"
          | some (some tt) =>
            let target_table := get_target_table_name tt flow
            if existing_tables.contains target_table then
              .exc ("Duplicated target table " ++ target_table)
            else .okW target_table s2

/-- Fixture: a plain table definition skeleton for the flow `f`. -/
def fixSt : TableState :=
  { flow := "f", source_schema := "src", target_schema := "tgt",
    batch_location := "s3://b", datalake_location := "s3://d" }

/-- Fixture: a synthesized `year` partition column of a parsed table. -/
def c2PartitionCol : Col :=
  make_partition_column "src" "f_a" "s3://b/f/a/" "tgt" "f_a" "s3://d/f/a/" "year"

/-- Fixture: a raw item whose `source_name` cell is empty. -/
def c6Item : RawItem :=
  { file_name := some "a.csv", source_name := none, new_name := some "x",
    data_type := some "integer" }

/-- Fixture: a raw item for a plain integer key-less column named `id`. -/
def c3Item : RawItem :=
  { file_name := some "a.csv", new_name := some "id", data_type := some "integer" }

/-- Fixture: a raw item with an unknown data type. -/
def c3BadItem : RawItem :=
  { file_name := some "a.csv", new_name := some "id", data_type := some "text" }

/-- Fixture: a run whose only table declares the target column `id` twice. -/
def c3Tables : List TableInput :=
  [{ target_table := "f_a", st := fixSt, items := [c3Item, c3Item] }]

/-- Fixture: a run whose only table has an invalid data type in row 1. -/
def c3BadTables : List TableInput :=
  [{ target_table := "f_a", st := fixSt, items := [c3BadItem] }]

/-- Whether the table loop of `parse_rows` completes without raising. -/
def parseOk (tables : List TableInput) : Bool :=
  match parse_rows_tables tables with
  | .ok _ => true
  | .error _ => false

/-- Fixture: a raw item for a plain integer column named `id` in file `a.csv`. -/
def c5Item : RawItem :=
  { file_name := some "a.csv", new_name := some "id", data_type := some "integer" }

/-- Fixture: the column `process_item` produces for `c5Item` under `fixSt`. -/
def c5Col : Col :=
  { source_schema := "src", source_table := "f_a",
    source_location := "s3://b/f/a/", source_column := "col1",
    target_schema := "tgt", target_table := "f_a",
    target_location := "s3://d/f/a/", target_column := "id",
    data_type := "integer" }

/-- Fixture: the table state after processing `c5Item` under `fixSt`. -/
def c5St1 : TableState :=
  { fixSt with
    source_table := some "f_a"
    source_location := some "s3://b/f/a/"
    filename := some "a.csv"
    target_table := some "f_a"
    target_location := some "s3://d/f/a/"
    col_number := 1 }

/-- Fixture: an ingestion worksheet whose `#CONFIG` section contains a row
with an empty first cell, and which has no `#SELECT` section. -/
def c10WsBadConfig : Worksheet :=
  { title := "s1", rows := [[some "TYPE", none], [some "#INGESTION", none],
      [some "#CONFIG", none], [none, none]] }

/-- Fixture: an ingestion worksheet with a well-formed `#CONFIG` section and
no `#SELECT` section. -/
def c10WsNoSelect : Worksheet :=
  { title := "s1", rows := [[some "TYPE", none], [some "#INGESTION", none],
      [some "#CONFIG", none], [some "partitions", some "year"]] }

/-- Fixture: an ingestion worksheet whose `#CONFIG` section stores a value
under the key `header` (aliasing the parser state entry of the same name)
and which has no `#SELECT` section. -/
def c10WsHeaderConfig : Worksheet :=
  { title := "s1", rows := [[some "TYPE", none], [some "#INGESTION", none],
      [some "#CONFIG", none], [some "header", some "x"]] }

/-- Fixture: a column record carrying only the target column name `id` (the
duplicate check reads nothing else). -/
def c9Cola : Col := { target_column := "id" }

/-- Fixture: a parsed run whose only table has two columns both targeting `id`. -/
def c9Parsed : List ParsedTable := [("f_a", [c9Cola, c9Cola], fixSt)]

/-- Fixture: a key column named `id` of a parsed table. -/
def c4ColKey : Col :=
  { source_schema := "src", source_table := "f_a",
    source_location := "s3://b/f/a/", source_column := "col1",
    target_schema := "tgt", target_table := "f_a",
    target_location := "s3://d/f/a/", target_column := "id",
    data_type := "integer", key := true }

/-- Fixture: a second key column named `id2` of a parsed table. -/
def c4ColKey2 : Col :=
  { c4ColKey with source_column := "col2", target_column := "id2" }

/-- Fixture: a non-key column named `v` of a parsed table. -/
def c4ColPlain : Col :=
  { c4ColKey with source_column := "col3", target_column := "v", key := false }

/-- Fixture: the final table state of a parsed single-key table. -/
def c4St : TableState :=
  { fixSt with
    source_table := some "f_a"
    source_location := some "s3://b/f/a/"
    filename := some "a.csv"
    target_table := some "f_a"
    target_location := some "s3://d/f/a/"
    col_number := 3 }

/-- Fixture: a table definition declaring the non-hive partition layout with a
single `year` partition key. -/
def c7St : TableState :=
  { fixSt with
    partitions := .pStr "year"
    partitions_style := some "non-hive" }

/-- Fixture: a raw item for a plain integer column named `v` in file `b.csv`. -/
def c7Item : RawItem :=
  { file_name := some "b.csv", new_name := some "v", data_type := some "integer" }

/-- Fixture: the column `process_item` produces for `c7Item` under `c7St`. -/
def c7Col : Col :=
  { source_schema := "src", source_table := "f_b",
    source_location := "s3://b/f/b/", source_column := "col1",
    target_schema := "tgt", target_table := "f_b",
    target_location := "s3://d/f/b/", target_column := "v",
    data_type := "integer" }

/-- Fixture: the table state after processing `c7Item` under `c7St`. -/
def c7St1 : TableState :=
  { c7St with
    source_table := some "f_b"
    source_location := some "s3://b/f/b/"
    filename := some "b.csv"
    target_table := some "f_b"
    target_location := some "s3://d/f/b/"
    col_number := 1 }

end DbtIng

namespace DbtIng

/-- Claim C1, code bug.  The claim says every data-type token outside the
enumerated grammar raises a MappingError citing the row; the code instead
tests membership with `in ("decimal")`, `in ("float")` and `in ("double")`,
which are strings rather than one-element tuples, so any substring of
`decimal`, `float` or `double` is accepted and normalized as if it were that
type: `ecimal` becomes `ecimal(18,2)`, `oat` becomes `real` and `uble`
becomes `double precision` instead of an error. -/
theorem c1_data_type_substring_bug :
    normalize_data_type 7 (some "ecimal") none = .ok "ecimal(18,2)" none ∧
    normalize_data_type 7 (some "oat") none = .ok "real" none ∧
    normalize_data_type 7 (some "uble") none = .ok "double precision" none := by
  decide

/-- Claim C2, code bug.  The claim says partition columns of a non-JSON batch
table keep their normalized data type; the code reads the partition marker
from `column.get("meta", \x7b\x7d).get("partition")`, a key the parsed
columns never carry, so the guard is vacuous and a synthesized `year`
partition column (normalized type `char(4)`) is also forced to
`varchar(65535)` in the batch document. -/
theorem c2_batch_partition_forced_type_bug :
    c2PartitionCol.partition = true ∧
    c2PartitionCol.data_type = "char(4)" ∧
    (generate_column c2PartitionCol "batch" ["year", "month", "day"] none false
      (some "csv")).data_type = "varchar(65535)" := by
  decide

/-- Claim C6, counterexample.  A raw record with an absent `source_name` but a
non-empty `file_name` is not skipped: the row loop keys the blank-line skip on
`file_name` (line 277), and under the default non-JSON source format this
record produces a column. -/
theorem c6_source_name_not_skipped :
    c6Item.source_name = none ∧
    (process_item fixSt 1 "f_a" c6Item).isOk = true ∧
    process_item fixSt 1 "f_a" c6Item ≠ .empty := by
  decide

/-- Claim C6, amended: the blank-line skip of the row loop is keyed on the
`file_name` field, not on `source_name`: every raw record whose `file_name`
cell is empty or absent is skipped entirely, producing no column and no
error. -/
theorem c6_blank_line_skip_on_file_name (st : TableState) (n : Nat) (tt : String)
    (item : RawItem) (h : pyTruthy item.file_name = false) :
    process_item st n tt item = .empty := by
  unfold process_item
  simp [h]

/-- Witness for the amended claim C6 at a concrete record carrying only a
`source_name`. -/
theorem c6_blank_line_skip_on_file_name_witness :
    process_item fixSt 1 "f_a" { file_name := none, source_name := some "X" } =
      .empty :=
  c6_blank_line_skip_on_file_name fixSt 1 "f_a" _ (by decide)

/-- Claim C8: the `partitions` setting accepts an explicit list (used as is)
or a comma-separated string split with each piece trimmed, the empty string
yields no partitions, and a missing setting falls back to the default list
`year`, `month`, `day` (`DEFAULT_PARTITIONS`, modelled from the spec). -/
theorem c8_partitions_setting :
    (∀ l, resolve_partitions (.pList l) = l) ∧
    resolve_partitions (.pStr "") = [] ∧
    (∀ s, s ≠ "" → resolve_partitions (.pStr s) = (pySplitComma s).map pyStrip) ∧
    resolve_partitions .unset = ["year", "month", "day"] := by
  refine ⟨fun l => rfl, rfl, fun s hs => ?_, rfl⟩
  simp [resolve_partitions, hs]

/-- Witness for claim C8 at a concrete comma-separated string with spaces. -/
theorem c8_partitions_setting_witness :
    resolve_partitions (.pStr "year , month") = ["year", "month"] := by
  rw [c8_partitions_setting.2.2.1 "year , month" (by decide)]
  decide

/-- Claim C3, counterexample.  A run whose only failure is the aggregate
duplicate-target-column validation still writes the canonical metadata
document: `parse_rows` writes `flows/\x7bflow\x7d.cfg.json` (lines 413-414)
before `check` raises, so the failed run has `write_cfg_json` in its trace. -/
theorem c3_cfg_written_despite_duplicate_failure :
    (xlsx_to_json_mapping_run c3Tables).error =
      some (.exc "Duplicated columns") ∧
    Event.write_cfg_json ∈ (xlsx_to_json_mapping_run c3Tables).events := by
  decide

/-- Claim C3, amended: the canonical metadata document is not written when the
run fails during row parsing and normalization (structural and field-level
errors abort `parse_rows` before its write); but the document is written, as
a full overwrite, at the end of `parse_rows` and before `check` runs, so a
run that fails only the aggregate duplicate-column validation has already
written it. -/
theorem c3_cfg_write_ordering (tables : List TableInput) :
    (∀ e, parse_rows_tables tables = .error e →
      (xlsx_to_json_mapping_run tables).error = some e ∧
      Event.write_cfg_json ∉ (xlsx_to_json_mapping_run tables).events) ∧
    (parseOk tables = true →
      Event.write_cfg_json ∈ (xlsx_to_json_mapping_run tables).events) := by
  constructor
  · intro e he
    simp [xlsx_to_json_mapping_run, he]
  · intro hok
    unfold parseOk at hok
    unfold xlsx_to_json_mapping_run
    cases hp : parse_rows_tables tables with
    | error e => rw [hp] at hok; simp at hok
    | ok parsed =>
      by_cases hc : check_raises parsed
      · simp [hc]
      · simp [hc]

/-- Witness for the amended claim C3: a field-level failure writes nothing,
while the duplicate-column failure has already written the document. -/
theorem c3_cfg_write_ordering_witness :
    ((xlsx_to_json_mapping_run c3BadTables).error =
      some (.exc "#1 invalid data_type in row") ∧
    Event.write_cfg_json ∉ (xlsx_to_json_mapping_run c3BadTables).events) ∧
    Event.write_cfg_json ∈ (xlsx_to_json_mapping_run c3Tables).events := by
  refine ⟨(c3_cfg_write_ordering c3BadTables).1
    (.exc "#1 invalid data_type in row") (by rfl),
    (c3_cfg_write_ordering c3Tables).2 (by decide)⟩

/-- Claim C5, amended: for every table with at least one processed data row
(the hypotheses fix the four location fields that the first such row sets),
one partition column per declared partition key is synthesized and appended
after all the data columns, in declared order, each marked as a partition
column, typed `char(4)` for the key `year`, `char(2)` for `day`, `month`,
`hour` and `minute`, and `varchar(20)` for any other key name.  A table whose
rows were all skipped crashes with a `KeyError` while building the first
partition column instead. -/
theorem c5_partition_synthesis (st : TableState) (tt : String)
    (items : List RawItem) (cols : List Col) (st1 : TableState)
    (stab sloc ttab tloc : String)
    (hp : process_items st tt 1 items = .ok cols st1)
    (h1 : st1.source_table = some stab) (h2 : st1.source_location = some sloc)
    (h3 : st1.target_table = some ttab) (h4 : st1.target_location = some tloc) :
    parse_table st tt items = TableResult.ok
      (cols ++ (resolve_partitions st1.partitions).map
        (make_partition_column st1.source_schema stab sloc st1.target_schema
          ttab tloc))
      { st1 with partitions := .pList (resolve_partitions st1.partitions) } ∧
    ∀ k ∈ resolve_partitions st1.partitions,
      (make_partition_column st1.source_schema stab sloc st1.target_schema
        ttab tloc k).partition = true ∧
      (make_partition_column st1.source_schema stab sloc st1.target_schema
        ttab tloc k).target_column = k ∧
      (k = "year" →
        (make_partition_column st1.source_schema stab sloc st1.target_schema
          ttab tloc k).data_type = "char(4)") ∧
      (k = "day" ∨ k = "month" ∨ k = "hour" ∨ k = "minute" →
        (make_partition_column st1.source_schema stab sloc st1.target_schema
          ttab tloc k).data_type = "char(2)") ∧
      (k ≠ "year" ∧ ¬ (k = "day" ∨ k = "month" ∨ k = "hour" ∨ k = "minute") →
        (make_partition_column st1.source_schema stab sloc st1.target_schema
          ttab tloc k).data_type = "varchar(20)") := by
  constructor
  · unfold parse_table
    rw [hp]
    cases hps : resolve_partitions st1.partitions with
    | nil => simp [hps]
    | cons a l => simp [hps, h1, h2, h3, h4]
  · intro k _
    refine ⟨rfl, rfl, ?_, ?_, ?_⟩
    · intro hy
      simp [make_partition_column, partition_data_type, hy]
    · intro hd
      have hky : ¬ k = "year" := by
        rcases hd with h | h | h | h <;> subst h <;> decide
      simp [make_partition_column, partition_data_type, hky, hd]
    · rintro ⟨hky, hnd⟩
      simp [make_partition_column, partition_data_type, hky, hnd]

/-- Claim C5, counterexample.  A table definition none of whose raw rows
produced a column (here: a table with no rows at all, under the default
partition list) gets no partition columns appended: building the first
synthesized column reads the never-set `source_table`, `source_location`,
`target_table` and `target_location` keys of the table definition
(lines 391-397) and crashes with an uncaught `KeyError`. -/
theorem c5_empty_table_keyerror :
    parse_table fixSt "f_a" [] = .crash "KeyError" := by
  decide

/-- Witness for claim C5: a one-row table under the default partition list
appends `year`, `month`, `day` columns after the data column, typed
`char(4)`, `char(2)`, `char(2)` and marked as partitions. -/
theorem c5_partition_synthesis_witness :
    parse_table fixSt "f_a" [c5Item] = TableResult.ok
      ([c5Col] ++ (resolve_partitions c5St1.partitions).map
        (make_partition_column "src" "f_a" "s3://b/f/a/" "tgt" "f_a"
          "s3://d/f/a/"))
      { c5St1 with partitions := .pList (resolve_partitions c5St1.partitions) } ∧
    (parsedColumns (parse_table fixSt "f_a" [c5Item])).map
      (fun c => (c.target_column, c.data_type, c.partition)) =
      [("id", "integer", false), ("year", "char(4)", true),
       ("month", "char(2)", true), ("day", "char(2)", true)] := by
  refine ⟨?_, by decide⟩
  exact (c5_partition_synthesis fixSt "f_a" [c5Item] [c5Col] c5St1 "f_a"
    "s3://b/f/a/" "f_a" "s3://d/f/a/" (by decide) rfl rfl rfl rfl).1

/-- Claim C7, counterexample.  A table that selects the non-hive partition
layout (`partitions_style` set to `non-hive`) with the single partition key
`year` still gets a synthesized partition column whose physical/source column
name is the key `year` itself, not the positional name `partition_0`: the
partition loop of `parse_rows` (lines 383-403) never reads
`partitions_style`. -/
theorem c7_style_ignored_counterexample :
    c7St.partitions_style = some "non-hive" ∧
    (parsedColumns (parse_table c7St "f_b" [c7Item])).map
      (fun c => c.source_column) = ["col1", "year"] ∧
    ¬ (parsedColumns (parse_table c7St "f_b" [c7Item])).map
      (fun c => c.source_column) = ["col1", "partition_0"] := by
  decide

/-- Claim C7, amended: the synthesized partition column always uses the
partition key itself as both its physical/source column name and its target
column name, for every value of the `partitions_style` setting; no positional
`partition_\x7bindex\x7d` naming exists in the compiler. -/
theorem c7_partition_source_name_is_key (style : Option String)
    (st : TableState) (tt : String) (items : List RawItem) (cols : List Col)
    (st1 : TableState) (stab sloc ttab tloc : String)
    (_hstyle : st.partitions_style = style)
    (hp : process_items st tt 1 items = .ok cols st1)
    (h1 : st1.source_table = some stab) (h2 : st1.source_location = some sloc)
    (h3 : st1.target_table = some ttab) (h4 : st1.target_location = some tloc) :
    parse_table st tt items = TableResult.ok
      (cols ++ (resolve_partitions st1.partitions).map
        (make_partition_column st1.source_schema stab sloc st1.target_schema
          ttab tloc))
      { st1 with partitions := .pList (resolve_partitions st1.partitions) } ∧
    ∀ k ∈ resolve_partitions st1.partitions,
      (make_partition_column st1.source_schema stab sloc st1.target_schema
        ttab tloc k).source_column = k ∧
      (make_partition_column st1.source_schema stab sloc st1.target_schema
        ttab tloc k).target_column = k := by
  constructor
  · unfold parse_table
    rw [hp]
    cases hps : resolve_partitions st1.partitions with
    | nil => simp [hps]
    | cons a l => simp [hps, h1, h2, h3, h4]
  · intro k _
    exact ⟨rfl, rfl⟩

/-- Witness for the amended claim C7 at a table declaring the non-hive
layout: the synthesized column is still named after the key. -/
theorem c7_partition_source_name_is_key_witness :
    parse_table c7St "f_b" [c7Item] = TableResult.ok
      ([c7Col] ++ (resolve_partitions c7St1.partitions).map
        (make_partition_column "src" "f_b" "s3://b/f/b/" "tgt" "f_b"
          "s3://d/f/b/"))
      { c7St1 with partitions := .pList (resolve_partitions c7St1.partitions) } :=
  (c7_partition_source_name_is_key (some "non-hive") c7St "f_b" [c7Item]
    [c7Col] c7St1 "f_b" "s3://b/f/b/" "f_b" "s3://d/f/b/" rfl (by decide)
    rfl rfl rfl rfl).1

/-- Claim C4: in the generated datalake document, a table with exactly one
key column carries no table-level compound assertion, and among the generated
per-column entries exactly the key column carries one single-column
uniqueness assertion scoped by the partition predicate; a table with more
than one key column carries one table-level compound-uniqueness assertion
listing all key columns, and no per-column entry carries a uniqueness
assertion. -/
theorem c4_uniqueness_assertions (name : String) (cols : List Col)
    (st : TableState) :
    (((cols.filter (fun c => c.key)).map (fun c => c.target_column)).length = 1 →
      (generate_datalake_table (name, cols, st)).tests = none ∧
      (generate_datalake_table (name, cols, st)).columns =
        cols.map (fun c => generate_column c "datalake"
          (resolve_partitions st.partitions) none false none) ∧
      ∀ c ∈ cols,
        ((generate_column c "datalake" (resolve_partitions st.partitions) none
          false none).tests.filter DbtTest.isUniqueness) =
        (if c.key = true then
          [DbtTest.unique_where
            (partition_predicate (resolve_partitions st.partitions))]
         else [])) ∧
    (((cols.filter (fun c => c.key)).map (fun c => c.target_column)).length > 1 →
      (generate_datalake_table (name, cols, st)).tests =
        some [DbtTest.unique_columns_where
          ((cols.filter (fun c => c.key)).map (fun c => c.target_column))
          (partition_predicate (resolve_partitions st.partitions))] ∧
      (generate_datalake_table (name, cols, st)).columns =
        cols.map (fun c => generate_column c "datalake"
          (resolve_partitions st.partitions) none true none) ∧
      ∀ c ∈ cols,
        ((generate_column c "datalake" (resolve_partitions st.partitions) none
          true none).tests.filter DbtTest.isUniqueness) = []) := by
  constructor
  · intro h
    refine ⟨?_, ?_, ?_⟩
    · simp [generate_datalake_table, h]
    · simp [generate_datalake_table, h]
    · intro c _
      by_cases hk : c.key = true <;>
        by_cases hn : c.nullable = false ∧ c.partition = false <;>
          simp [generate_column, hk, hn, DbtTest.isUniqueness]
  · intro h
    have h2 : 1 < (cols.filter (fun c => c.key)).length := by
      simpa using h
    refine ⟨?_, ?_, ?_⟩
    · simp [generate_datalake_table, decide_eq_true h2]
    · simp [generate_datalake_table, decide_eq_true h2]
    · intro c _
      by_cases hk : c.key = true <;>
        by_cases hn : c.nullable = false ∧ c.partition = false <;>
          simp [generate_column, hk, hn, DbtTest.isUniqueness]

/-- Witness for claim C4: a table with the single key `id` gets a per-column
uniqueness assertion and no table-level one; a table with keys `id` and `id2`
gets one table-level compound assertion and no per-column one. -/
theorem c4_uniqueness_assertions_witness :
    ((generate_datalake_table ("f_a", [c4ColKey, c4ColPlain], c4St)).tests =
      none ∧
    ((generate_column c4ColKey "datalake" ["year", "month", "day"] none false
      none).tests.filter DbtTest.isUniqueness) =
      [DbtTest.unique_where (partition_predicate ["year", "month", "day"])]) ∧
    (generate_datalake_table ("f_a", [c4ColKey, c4ColKey2], c4St)).tests =
      some [DbtTest.unique_columns_where ["id", "id2"]
        (partition_predicate ["year", "month", "day"])] := by
  refine ⟨⟨((c4_uniqueness_assertions "f_a" [c4ColKey, c4ColPlain] c4St).1
    (by decide)).1, ?_⟩, ?_⟩
  · have h := (((c4_uniqueness_assertions "f_a" [c4ColKey, c4ColPlain] c4St).1
      (by decide)).2.2 c4ColKey (by decide))
    rw [show c4ColKey.key = true from rfl, if_pos rfl] at h
    exact h
  · have h := ((c4_uniqueness_assertions "f_a" [c4ColKey, c4ColKey2] c4St).2
      (by decide)).1
    rw [h]
    decide

/-- Helper for claim C9: the duplicate scan is empty exactly when the scanned
names are distinct and none was already seen. -/
theorem dup_scan_eq_nil_iff (l : List String) :
    ∀ seen, dup_scan seen l = [] ↔ l.Nodup ∧ ∀ x ∈ l, x ∉ seen := by
  induction l with
  | nil => intro seen; simp [dup_scan]
  | cons t ts ih =>
    intro seen
    by_cases h : t ∈ seen
    · rw [dup_scan, if_pos h]
      constructor
      · intro hC; exact absurd hC (by simp)
      · rintro ⟨_, hall⟩
        exact absurd h (hall t (by simp))
    · rw [dup_scan, if_neg h, List.nil_append, ih (t :: seen)]
      constructor
      · rintro ⟨hnd, hall⟩
        have ht : t ∉ ts := fun hmem => (hall t hmem) (by simp)
        refine ⟨List.nodup_cons.mpr ⟨ht, hnd⟩, ?_⟩
        intro x hx
        rcases List.mem_cons.mp hx with rfl | hx2
        · exact h
        · intro hxs
          exact (hall x hx2) (by simp [hxs])
      · rintro ⟨hnd, hall⟩
        have hsplit := List.nodup_cons.mp hnd
        refine ⟨hsplit.2, ?_⟩
        intro x hx hmem
        rcases List.mem_cons.mp hmem with rfl | hxs
        · exact hsplit.1 hx
        · exact (hall x (by simp [hx])) hxs

/-- Helper for claim C9: a table reports no duplicate exactly when its target
column names are distinct as stored. -/
theorem table_dup_columns_eq_nil_iff (cols : List Col) :
    table_dup_columns cols = [] ↔
      (cols.map (fun c => c.target_column)).Nodup := by
  unfold table_dup_columns
  rw [dup_scan_eq_nil_iff]
  simp

/-- Helper for claim C9: the full report is empty exactly when every table is
duplicate-free. -/
theorem check_reported_eq_nil_iff (parsed : List ParsedTable) :
    check_reported parsed = [] ↔
      ∀ p ∈ parsed, (p.2.1.map (fun c => c.target_column)).Nodup := by
  induction parsed with
  | nil => simp [check_reported]
  | cons q qs ih =>
    rw [check_reported, List.append_eq_nil, List.map_eq_nil_iff,
      table_dup_columns_eq_nil_iff, ih]
    constructor
    · rintro ⟨h1, h2⟩ p hp
      rcases List.mem_cons.mp hp with rfl | hp2
      · exact h1
      · exact h2 p hp2
    · intro h
      exact ⟨h q (by simp), fun p hp => h p (by simp [hp])⟩

/-- Helper for claim C9: every duplicate detected in any table of the run is
present in the aggregate report. -/
theorem check_reported_mem (parsed : List ParsedTable) :
    ∀ p ∈ parsed, ∀ c ∈ table_dup_columns p.2.1,
      (p.1, c) ∈ check_reported parsed := by
  induction parsed with
  | nil => simp
  | cons q qs ih =>
    intro p hp c hc
    rcases List.mem_cons.mp hp with rfl | hp2
    · rw [check_reported]
      exact List.mem_append_left _ (List.mem_map.mpr ⟨c, hc, rfl⟩)
    · rw [check_reported]
      exact List.mem_append_right _ (ih p hp2 c hc)

/-- Claim C9: the duplicate-column validation raises its single aggregate
error exactly when some table has two columns sharing the same stored
`target_column` (case-sensitive exact match), and every duplicate detected in
any table of the run is collected into the report before the failure is
raised, rather than stopping at the first duplicate. -/
theorem c9_duplicate_validation (parsed : List ParsedTable) :
    (check_raises parsed = true ↔
      ∃ p ∈ parsed, ¬ ((p.2.1.map (fun c => c.target_column)).Nodup)) ∧
    (∀ p ∈ parsed, ∀ c ∈ table_dup_columns p.2.1,
      (p.1, c) ∈ check_reported parsed) := by
  constructor
  · have hb : check_raises parsed = true ↔ ¬ (check_reported parsed = []) := by
      unfold check_raises
      cases check_reported parsed <;> simp
    rw [hb, check_reported_eq_nil_iff]
    push_neg
    constructor
    · rintro ⟨p, hp, hnd⟩; exact ⟨p, hp, hnd⟩
    · rintro ⟨p, hp, hnd⟩; exact ⟨p, hp, hnd⟩
  · exact check_reported_mem parsed

/-- Witness for claim C9: a run whose only table targets `id` twice raises
the aggregate error and reports the pair. -/
theorem c9_duplicate_validation_witness :
    check_raises c9Parsed = true ∧ ("f_a", "id") ∈ check_reported c9Parsed := by
  constructor
  · exact (c9_duplicate_validation c9Parsed).1.mpr
      ⟨("f_a", [c9Cola, c9Cola], fixSt), by decide, by decide⟩
  · exact (c9_duplicate_validation c9Parsed).2
      ("f_a", [c9Cola, c9Cola], fixSt) (by decide) "id" (by decide)

/-- Helper for claim C10: a lookup after a dictionary assignment sees the
new value at the assigned key and the old dictionary at every other key. -/
theorem dictGet_dictSet (l : List (String × TdVal)) (k k2 : String) (v : TdVal) :
    dictGet (dictSet l k v) k2 = if k = k2 then some v else dictGet l k2 := by
  induction l with
  | nil =>
    by_cases h : k = k2 <;> simp [dictSet, dictGet, h]
  | cons p rest ih =>
    obtain ⟨k0, v0⟩ := p
    by_cases h0 : k0 = k
    · subst h0
      by_cases h : k0 = k2 <;> simp [dictSet, dictGet, h]
    · by_cases h : k0 = k2
      · subst h
        have hne : ¬ k = k0 := fun hc => h0 hc.symm
        simp [dictSet, dictGet, h0, hne]
      · simp [dictSet, dictGet, h0, h, ih]

/-- Helper for claim C10: a row that is not a `#SELECT` directive never
activates a select handler and never collects a raw item; the only way it can
touch the `header` entry is a config row writing a string under that key. -/
theorem ws_process_row_no_select (s : WsState) (row : Row) (s2 : WsState)
    (hrow : row0 row ≠ some "#SELECT")
    (hi : s.items = [])
    (hd1 : dictGet s.td "parse_row" ≠ some (.vHandler .selectHeader))
    (hd2 : dictGet s.td "parse_row" ≠ some (.vHandler .selectRow))
    (hstep : ws_process_row s row = .cont s2) :
    s2.items = [] ∧
    dictGet s2.td "parse_row" ≠ some (.vHandler .selectHeader) ∧
    dictGet s2.td "parse_row" ≠ some (.vHandler .selectRow) := by
  unfold ws_process_row at hstep
  cases row with
  | nil => exact absurd hstep (by simp)
  | cons c cs =>
    by_cases h1 : row0 (c :: cs) = some "#CONFIG"
    · rw [if_pos h1] at hstep
      simp only [WsStep.cont.injEq] at hstep
      subst hstep
      refine ⟨hi, ?_, ?_⟩ <;> simp [dictGet_dictSet]
    · rw [if_neg h1] at hstep
      by_cases h2 : row0 (c :: cs) = some "#WHERE"
      · rw [if_pos h2] at hstep
        simp only [WsStep.cont.injEq] at hstep
        subst hstep
        refine ⟨hi, ?_, ?_⟩ <;> simp [dictGet_dictSet]
      · rw [if_neg h2, if_neg hrow] at hstep
        cases hpr : dictGet s.td "parse_row" with
        | none => rw [hpr] at hstep; exact absurd hstep (by simp)
        | some v =>
          rw [hpr] at hstep
          cases v with
          | vNone => exact absurd hstep (by simp)
          | vStr sv => exact absurd hstep (by simp)
          | vHeader hl => exact absurd hstep (by simp)
          | vHandler hd =>
            cases hd with
            | config =>
              cases hg0 : (c :: cs).get? 0 with
              | none => rw [hg0] at hstep; exact absurd hstep (by simp)
              | some v0 =>
                rw [hg0] at hstep
                cases v0 with
                | none => exact absurd hstep (by simp)
                | some k =>
                  cases hg1 : (c :: cs).get? 1 with
                  | none => rw [hg1] at hstep; exact absurd hstep (by simp)
                  | some v1 =>
                    rw [hg1] at hstep
                    simp only [WsStep.cont.injEq] at hstep
                    subst hstep
                    refine ⟨hi, ?_, ?_⟩
                    · rw [dictGet_dictSet]
                      by_cases hk : pyLower (pyStrip k) = "parse_row"
                      · simp [hk]
                      · simp [hk, hpr]
                    · rw [dictGet_dictSet]
                      by_cases hk : pyLower (pyStrip k) = "parse_row"
                      · simp [hk]
                      · simp [hk, hpr]
            | whereH =>
              simp only [WsStep.cont.injEq] at hstep
              subst hstep
              by_cases hwc : pyStrip (cellOr (row0 (c :: cs)) "") ≠ ""
              · rw [if_pos hwc]
                refine ⟨hi, ?_, ?_⟩ <;>
                  · rw [dictGet_dictSet]
                    simp [hpr, show ¬ ("where_condition" : String) = "parse_row"
                      from by decide]
              · rw [if_neg hwc]
                exact ⟨hi, by simp [hpr], by simp [hpr]⟩
            | selectHeader => exact absurd hpr hd1
            | selectRow => exact absurd hpr hd2

/-- Helper for claim C10: when no row of the loop is a `#SELECT` directive
and the loop completes, no raw item was collected. -/
theorem ws_fold_no_select (rows : List Row) :
    ∀ s, (∀ r ∈ rows, row0 r ≠ some "#SELECT") →
    s.items = [] →
    dictGet s.td "parse_row" ≠ some (.vHandler .selectHeader) →
    dictGet s.td "parse_row" ≠ some (.vHandler .selectRow) →
    ∀ s1, ws_fold s rows = .cont s1 → s1.items = [] := by
  induction rows with
  | nil =>
    intro s _ hi _ _ s1 h
    rw [ws_fold] at h
    simp only [WsStep.cont.injEq] at h
    subst h
    exact hi
  | cons r rs ih =>
    intro s hrows hi hd1 hd2 s1 h
    rw [ws_fold] at h
    cases hstep : ws_process_row s r with
    | cont s2 =>
      rw [hstep] at h
      have hinv := ws_process_row_no_select s r s2
        (hrows r (by simp)) hi hd1 hd2 hstep
      exact ih s2 (fun q hq => hrows q (by simp [hq])) hinv.1 hinv.2.1
        hinv.2.2 s1 h
    | exc m => rw [hstep] at h; exact absurd h (by simp)
    | crashW m => rw [hstep] at h; exact absurd h (by simp)

/-- Claim C10, counterexample.  The claim says every `TYPE`/`#INGESTION`
worksheet without a `#SELECT` section ends in an uncaught `KeyError` or
`IndexError` rather than a `MappingException`; but a worksheet whose
`#CONFIG` section contains a row with an empty first cell raises a
`MappingException` from the guarded config handler (lines 78-82) before the
loop ends. -/
theorem c10_mapping_exception_counterexample :
    wsCell c10WsBadConfig 0 0 = some "TYPE" ∧
    wsCell c10WsBadConfig 1 0 = some "#INGESTION" ∧
    (∀ r ∈ c10WsBadConfig.rows.drop 2, row0 r ≠ some "#SELECT") ∧
    parse_worsheet c10WsBadConfig "flow" [] = .exc "Error parsing row" := by
  refine ⟨by decide, by decide, by decide, by decide⟩

/-- Claim C10, amended: for every worksheet whose `A1` is `TYPE` and `A2` is
`#INGESTION`, which contains no `#SELECT` row past row 2, and whose row loop
completes without raising on a row of its own, `parse_worsheet` terminates
with an uncaught `KeyError` or `IndexError` rather than a `MappingException`:
the `KeyError` from `del table_def["header"]` when no config row created that
entry, the `IndexError` from indexing the empty collected-column list when a
config row keyed `header` did create it. -/
theorem c10_missing_select_uncaught_crash (ws : Worksheet) (flow : String)
    (existing : List String)
    (hA1 : wsCell ws 0 0 = some "TYPE")
    (hA2 : wsCell ws 1 0 = some "#INGESTION")
    (hsel : ∀ r ∈ ws.rows.drop 2, row0 r ≠ some "#SELECT")
    (hloop : ws_fold_completes (ws.rows.drop 2) = true) :
    parse_worsheet ws flow existing = .crashW "KeyError: header" ∨
    parse_worsheet ws flow existing = .crashW "IndexError: columns" := by
  unfold parse_worsheet
  rw [if_neg (by simp [hA1]), if_neg (by simp [hA2])]
  unfold ws_fold_completes at hloop
  cases hf : ws_fold {} (ws.rows.drop 2) with
  | exc m => rw [hf] at hloop; simp at hloop
  | crashW m => rw [hf] at hloop; simp at hloop
  | cont s1 =>
    have hitems : s1.items = [] :=
      ws_fold_no_select (ws.rows.drop 2) {} hsel rfl (by decide) (by decide)
        s1 hf
    cases hh : dictGet (dictDel s1.td "parse_row") "header" with
    | none =>
      left
      simp [hh]
    | some v =>
      right
      simp [hh, hitems]

/-- Witness for the amended claim C10: a worksheet whose config section sets
only `partitions` crashes deleting the never-created header entry, while one
whose config section writes a `header` entry passes the delete and crashes
indexing the empty column list. -/
theorem c10_missing_select_uncaught_crash_witness :
    (parse_worsheet c10WsNoSelect "flow" [] = .crashW "KeyError: header" ∨
     parse_worsheet c10WsNoSelect "flow" [] = .crashW "IndexError: columns") ∧
    parse_worsheet c10WsNoSelect "flow" [] = .crashW "KeyError: header" ∧
    parse_worsheet c10WsHeaderConfig "flow" [] =
      .crashW "IndexError: columns" := by
  refine ⟨c10_missing_select_uncaught_crash c10WsNoSelect "flow" []
    (by decide) (by decide) (by decide) (by decide), by decide, by decide⟩

end DbtIng
